import Mathlib

/-!
Verification of the F5 VirtualServer source adapter
(`src/source/f5_virtualserver.go`) of external-dns.

The adapter mirrors F5 `VirtualServer` cluster objects, converts each cached
generic object into a typed shape, filters the set by an annotation selector,
and synthesizes DNS endpoint records per object following a strict
target-resolution precedence.

Definitions are translated from the Go source.  Helpers that live elsewhere in
the repository (the annotation parsers `annotations.ParseFilter`,
`annotations.TargetsFromTargetAnnotation`, `annotations.TTLFromAnnotations`,
and the record constructor `EndpointsForHostname`) are modelled from the
specification, and are marked as such in their doc comments.
-/

/-- The typed `Spec` of an F5 VirtualServer: `Host` and `VirtualServerAddress`
(the spec-level address). -/
structure VirtualServerSpec where
  host : String
  virtualServerAddress : String
deriving DecidableEq, Repr

/-- The typed `Status` of an F5 VirtualServer: `VSAddress` (the observed,
status-level address). -/
structure VirtualServerStatus where
  vsAddress : String
deriving DecidableEq, Repr

/-- The typed F5 `VirtualServer` object: object metadata (namespace, name,
annotation map with unique keys, modelled as an association list) together
with its spec and status. -/
structure VirtualServer where
  vsNamespace : String
  vsName : String
  annotations : List (String × String)
  spec : VirtualServerSpec
  status : VirtualServerStatus
deriving DecidableEq, Repr

/-- A produced DNS endpoint record: dnsName, ordered target addresses,
optional TTL (none = provider default), and the provenance/resource tag. -/
structure EndpointRecord where
  dnsName : String
  targets : List String
  recordTTL : Option Nat
  resource : String
deriving DecidableEq, Repr

/-- Character-wise lower-casing of a string, the embedding of Go
`strings.ToLower` (ASCII-relevant behaviour), written over the underlying
character list so that it evaluates by kernel reduction. -/
def toLowerString (s : String) : String :=
  String.mk (s.data.map Char.toLower)

/-- Split a character list on a separator character; the embedding of Go
`strings.Split` for one-character separators. -/
def splitCharList (sep : Char) : List Char → List (List Char)
  | [] => [[]]
  | c :: cs =>
    let rest := splitCharList sep cs
    if c == sep then [] :: rest
    else
      match rest with
      | [] => [[c]]
      | r :: rs => (c :: r) :: rs

/-- Split a string on a separator character. -/
def splitStringOn (sep : Char) (s : String) : List String :=
  (splitCharList sep s.data).map String.mk

/-- Strip leading and trailing whitespace; the embedding of Go
`strings.TrimSpace`. -/
def trimString (s : String) : String :=
  String.mk (((s.data.dropWhile Char.isWhitespace).reverse.dropWhile Char.isWhitespace).reverse)

/-- Association-list lookup for an annotation key, mirroring Go map access. -/
def getAnnotationValue (annots : List (String × String)) (key : String) : Option String :=
  (annots.find? (fun kv => kv.1 == key)).map (fun kv => kv.2)

/-- The target-override annotation key used by external-dns. -/
def targetAnnotationKey : String := "external-dns.alpha.kubernetes.io/target"

/-- The TTL annotation key used by external-dns. -/
def ttlAnnotationKey : String := "external-dns.alpha.kubernetes.io/ttl"

/-- Modelled from the spec: the target-override-annotation parser
(`annotations.TargetsFromTargetAnnotation`, not under `src/`).  Reads the
target annotation and parses it into a list of addresses: absent annotation
yields no addresses; otherwise the value is split on commas, entries are
trimmed, and empty entries are dropped. -/
def TargetsFromTargetAnnotations (annots : List (String × String)) : List String :=
  match getAnnotationValue annots targetAnnotationKey with
  | none => []
  | some v => ((splitStringOn ',' v).map trimString).filter (fun t => t != "")

/-- Modelled from the spec: the TTL-annotation parser
(`annotations.TTLFromAnnotations`, not under `src/`).  Reads an explicit TTL
annotation if present and well-formed, otherwise leaves the TTL unset; the
resource argument is used only for diagnostics in the source. -/
def TTLFromAnnotations (annots : List (String × String)) (_resource : String) : Option Nat :=
  match getAnnotationValue annots ttlAnnotationKey with
  | none => none
  | some v => v.toNat?

/-- Modelled from the spec: the record constructor (`EndpointsForHostname`,
not under `src/`).  Builds one endpoint record for the hostname with the
resolved target list, TTL and provenance tag; a record with zero resolved
targets is never emitted. -/
def EndpointsForHostname (hostname : String) (targets : List String)
    (ttl : Option Nat) (resource : String) : List EndpointRecord :=
  if targets.isEmpty then []
  else [{ dnsName := hostname, targets := targets, recordTTL := ttl, resource := resource }]

/-- `hasValidVirtualServerIP` from the source: normalize the status address to
lower case; valid iff it is neither the literal `none` nor empty. -/
def hasValidVirtualServerIP (vs : VirtualServer) : Bool :=
  let normalizedAddress := toLowerString vs.status.vsAddress
  normalizedAddress != "none" && normalizedAddress != ""

/-- The target-resolution steps of `endpointsFromVirtualServers`
(lines 162-169 of the source): annotation targets first; if none and the
spec-level address is non-empty, append it; if still none and the
status-level address is non-empty, append it. -/
def resolveTargets (virtualServer : VirtualServer) : List String :=
  let targets := TargetsFromTargetAnnotations virtualServer.annotations
  let targets :=
    if targets.length == 0 && virtualServer.spec.virtualServerAddress != "" then
      targets ++ [virtualServer.spec.virtualServerAddress]
    else targets
  if targets.length == 0 && virtualServer.status.vsAddress != "" then
    targets ++ [virtualServer.status.vsAddress]
  else targets

/-- The per-object body of the loop in `endpointsFromVirtualServers`: objects
failing the validity gate are skipped (zero records, a warning is logged);
otherwise the provenance tag, TTL and targets are resolved and records are
built for the host. -/
def endpointsForVirtualServer (virtualServer : VirtualServer) : List EndpointRecord :=
  if hasValidVirtualServerIP virtualServer then
    let resource := "f5-virtualserver/" ++ virtualServer.vsNamespace ++ "/" ++ virtualServer.vsName
    let ttl := TTLFromAnnotations virtualServer.annotations resource
    EndpointsForHostname virtualServer.spec.host (resolveTargets virtualServer) ttl resource
  else []

/-- The accumulation of `endpointsFromVirtualServers` over the slice, in input
order. -/
def endpointsFromVirtualServersList : List VirtualServer → List EndpointRecord
  | [] => []
  | v :: rest => endpointsForVirtualServer v ++ endpointsFromVirtualServersList rest

/-- `endpointsFromVirtualServers` from the source: extracts the endpoints from
a slice of VirtualServers; its error result is always nil. -/
def endpointsFromVirtualServers (virtualServers : List VirtualServer) :
    Except String (List EndpointRecord) :=
  Except.ok (endpointsFromVirtualServersList virtualServers)

/-- A compiled annotation selector: a list of key=value requirements.  An
empty requirement list matches everything. -/
structure Selector where
  requirements : List (String × String)
deriving DecidableEq, Repr

/-- `Selector.Empty`: true iff the selector has no requirements. -/
def Selector.Empty (s : Selector) : Bool :=
  s.requirements.isEmpty

/-- `Selector.Matches`: all requirements hold in the given annotation map. -/
def Selector.Matches (s : Selector) (annots : List (String × String)) : Bool :=
  s.requirements.all (fun r => getAnnotationValue annots r.1 == some r.2)

/-- Parse one `key=value` requirement of a filter expression; malformed parts
(no equals sign, or an empty key) are errors. -/
def parseRequirement (part : String) : Except String (String × String) :=
  match splitStringOn '=' part with
  | [k, v] =>
    if trimString k == "" then Except.error ("unable to parse requirement: " ++ part)
    else Except.ok (trimString k, trimString v)
  | _ => Except.error ("unable to parse requirement: " ++ part)

/-- Parse a comma-separated list of requirements, failing on the first
malformed part. -/
def parseRequirements : List String → Except String (List (String × String))
  | [] => Except.ok []
  | p :: rest =>
    match parseRequirement p with
    | Except.error e => Except.error e
    | Except.ok r =>
      match parseRequirements rest with
      | Except.error e => Except.error e
      | Except.ok rs => Except.ok (r :: rs)

/-- Modelled from the spec: the filter-expression parser
(`annotations.ParseFilter`, not under `src/`).  An empty expression compiles
to the selector that matches everything; a malformed expression fails with a
syntax error. -/
def ParseFilter (expression : String) : Except String Selector :=
  if expression == "" then Except.ok { requirements := [] }
  else
    match parseRequirements (splitStringOn ',' expression) with
    | Except.error e => Except.error e
    | Except.ok rs => Except.ok { requirements := rs }

/-- `filterByAnnotations` from the source: parse the stored filter expression;
an empty selector returns the original list; otherwise keep exactly the
VirtualServers whose annotations match the selector. -/
def filterByAnnotations (annotationFilter : String)
    (virtualServers : List VirtualServer) : Except String (List VirtualServer) :=
  match ParseFilter annotationFilter with
  | Except.error e => Except.error e
  | Except.ok selector =>
    if Selector.Empty selector then Except.ok virtualServers
    else Except.ok (virtualServers.filter (fun v => Selector.Matches selector v.annotations))

/-- A cached generic object as seen through the informer's lister: either an
`Unstructured` carrying its scheme-conversion outcome, or some other runtime
type (the failed type assertion of line 110 of the source). -/
inductive CachedObject where
  | unstructured (conversion : Except String VirtualServer)
  | notUnstructured

/-- Modelled from the spec: the scheme conversion of one cached generic object
(`unstructuredConverter.scheme.Convert`, external collaborator).  A cached
object of the wrong runtime type fails with the source's literal error; an
`Unstructured` yields its conversion outcome. -/
def convertCachedObject : CachedObject → Except String VirtualServer
  | CachedObject.notUnstructured => Except.error "could not convert"
  | CachedObject.unstructured c => c

/-- The conversion loop of `Endpoints` (lines 108-121 of the source): convert
each cached object in order, aborting the whole batch on the first failure. -/
def convertAll : List CachedObject → Except String (List VirtualServer)
  | [] => Except.ok []
  | obj :: rest =>
    match convertCachedObject obj with
    | Except.error e => Except.error e
    | Except.ok v =>
      match convertAll rest with
      | Except.error e => Except.error e
      | Except.ok vs => Except.ok (v :: vs)

/-- The implementation-fixed total order on targets: lexicographic order on
the underlying character list of the address string. -/
def targetLe (a b : String) : Prop :=
  a.data ≤ b.data

instance targetLeDecidable : DecidableRel targetLe :=
  fun a b => inferInstanceAs (Decidable (a.data ≤ b.data))

instance targetLeTotal : IsTotal String targetLe :=
  ⟨fun a b => le_total a.data b.data⟩

instance targetLeTrans : IsTrans String targetLe :=
  ⟨fun _ _ _ h1 h2 => le_trans h1 h2⟩

/-- Modelled from the spec: the deterministic target ordering of step 6 of the
synthesizer (`sort.Sort(ep.Targets)`, whose comparator is repository code not
under `src/`): lexicographic order on the address string. -/
def sortTargets (targets : List String) : List String :=
  List.insertionSort targetLe targets

/-- The final sorting pass of `Endpoints` (lines 133-136 of the source),
applied to one record. -/
def sortEndpointTargets (ep : EndpointRecord) : EndpointRecord :=
  { ep with targets := sortTargets ep.targets }

/-- `Endpoints` from the source, over a snapshot of cached objects: convert
every object (first failure aborts), filter by annotations (wrapping a filter
error), synthesize records, and sort each record's targets. -/
def Endpoints (annotationFilter : String) (cachedObjects : List CachedObject) :
    Except String (List EndpointRecord) :=
  match convertAll cachedObjects with
  | Except.error e => Except.error e
  | Except.ok virtualServers =>
    match filterByAnnotations annotationFilter virtualServers with
    | Except.error e => Except.error ("failed to filter VirtualServers: " ++ e)
    | Except.ok filtered =>
      match endpointsFromVirtualServers filtered with
      | Except.error e => Except.error e
      | Except.ok endpoints => Except.ok (endpoints.map sortEndpointTargets)

/-- The state stored by `NewF5VirtualServerSource`: the namespace scope and
the annotation-filter expression, kept verbatim. -/
structure f5VirtualServerSource where
  vsNamespace : String
  annotationFilter : String
deriving DecidableEq, Repr

/-- `NewF5VirtualServerSource` from the source: wait for the initial cache
sync (propagating its error), build the unstructured converter (wrapping its
error), then store namespace and annotation filter.  The filter expression is
not parsed here. -/
def NewF5VirtualServerSource (cacheSyncResult : Except String Unit)
    (converterResult : Except String Unit) (vsNamespace : String)
    (annotationFilter : String) : Except String f5VirtualServerSource :=
  match cacheSyncResult with
  | Except.error e => Except.error e
  | Except.ok _ =>
    match converterResult with
    | Except.error e => Except.error ("failed to setup unstructured converter: " ++ e)
    | Except.ok _ =>
      Except.ok { vsNamespace := vsNamespace, annotationFilter := annotationFilter }

/-- A VirtualServer with only a status-level address (scenario 1 of the
spec). -/
def exampleVirtualServer : VirtualServer :=
  { vsNamespace := "default", vsName := "vs1",
    annotations := [],
    spec := { host := "a.example.com", virtualServerAddress := "" },
    status := { vsAddress := "10.0.0.5" } }

/-- A VirtualServer whose status address is the literal `None` (scenario 2 of
the spec). -/
def exampleInvalidStatus : VirtualServer :=
  { exampleVirtualServer with status := { vsAddress := "None" } }

/-- A VirtualServer with a target-override annotation and a spec-level address
(scenario 3 of the spec). -/
def exampleOverride : VirtualServer :=
  { exampleVirtualServer with
    annotations := [(targetAnnotationKey, "5.6.7.8,1.2.3.4")],
    spec := { host := "a.example.com", virtualServerAddress := "9.9.9.9" } }

/-- A VirtualServer with both a spec-level and a status-level address and no
target-override annotation. -/
def exampleSpecAddress : VirtualServer :=
  { exampleVirtualServer with
    spec := { host := "a.example.com", virtualServerAddress := "9.9.9.9" } }

/-- A VirtualServer annotated `environment=dev` (scenario 4 of the spec). -/
def exampleDevEnvironment : VirtualServer :=
  { exampleVirtualServer with annotations := [("environment", "dev")] }

lemma endpointsFromVirtualServersList_append (l1 l2 : List VirtualServer) :
    endpointsFromVirtualServersList (l1 ++ l2) =
      endpointsFromVirtualServersList l1 ++ endpointsFromVirtualServersList l2 := by
  induction l1 with
  | nil => rfl
  | cons v rest ih => simp [endpointsFromVirtualServersList, ih]

lemma hasValidVirtualServerIP_eq_false (vs : VirtualServer)
    (h : toLowerString vs.status.vsAddress = "" ∨ toLowerString vs.status.vsAddress = "none") :
    hasValidVirtualServerIP vs = false := by
  unfold hasValidVirtualServerIP
  rcases h with h | h <;> rw [h] <;> rfl

lemma statusAddress_ne_empty (vs : VirtualServer)
    (hvalid : hasValidVirtualServerIP vs = true) : vs.status.vsAddress ≠ "" := by
  intro h
  have hfalse : hasValidVirtualServerIP vs = false := by
    unfold hasValidVirtualServerIP
    rw [h]
    rfl
  rw [hfalse] at hvalid
  exact Bool.noConfusion hvalid

lemma endpointsForVirtualServer_eq_nil (vs : VirtualServer)
    (h : hasValidVirtualServerIP vs = false) : endpointsForVirtualServer vs = [] := by
  unfold endpointsForVirtualServer
  rw [h]
  rfl

/-- C1: a VirtualServer whose status address, lower-cased, is empty or equals
the literal `none` is skipped by endpoint synthesis: it contributes zero
records (removing it from the batch does not change the result) and the
synthesis step raises no error. -/
theorem invalidStatusAddressSkipped (vs : VirtualServer) (l1 l2 : List VirtualServer)
    (h : toLowerString vs.status.vsAddress = "" ∨ toLowerString vs.status.vsAddress = "none") :
    endpointsFromVirtualServers (l1 ++ vs :: l2) = endpointsFromVirtualServers (l1 ++ l2) ∧
    ∃ eps, endpointsFromVirtualServers (l1 ++ vs :: l2) = Except.ok eps := by
  have hskip : endpointsForVirtualServer vs = [] :=
    endpointsForVirtualServer_eq_nil vs (hasValidVirtualServerIP_eq_false vs h)
  constructor
  · unfold endpointsFromVirtualServers
    rw [endpointsFromVirtualServersList_append, endpointsFromVirtualServersList_append]
    show Except.ok (_ ++ endpointsFromVirtualServersList (vs :: l2)) = _
    rw [show endpointsFromVirtualServersList (vs :: l2) =
          endpointsForVirtualServer vs ++ endpointsFromVirtualServersList l2 from rfl, hskip]
    rfl
  · exact ⟨endpointsFromVirtualServersList (l1 ++ vs :: l2), rfl⟩

/-- Witness for C1 at scenario 2 of the spec: status address `None`. -/
theorem invalidStatusAddressSkipped_witness :
    endpointsFromVirtualServers ([] ++ exampleInvalidStatus :: []) =
      endpointsFromVirtualServers ([] ++ []) ∧
    ∃ eps, endpointsFromVirtualServers ([] ++ exampleInvalidStatus :: []) = Except.ok eps :=
  invalidStatusAddressSkipped exampleInvalidStatus [] [] (Or.inr (by rfl))

/-- C2: for a VirtualServer passing the validity gate whose target-override
annotation yields one or more addresses, the resolved targets are exactly the
parsed annotation addresses — spec-level and status-level addresses are
ignored, and every produced record carries exactly that list (before the
final sort). -/
theorem overrideTargetsExact (vs : VirtualServer)
    (hvalid : hasValidVirtualServerIP vs = true)
    (hne : TargetsFromTargetAnnotations vs.annotations ≠ []) :
    resolveTargets vs = TargetsFromTargetAnnotations vs.annotations ∧
    ∀ ep ∈ endpointsForVirtualServer vs,
      ep.targets = TargetsFromTargetAnnotations vs.annotations := by
  obtain ⟨a, l, ht⟩ : ∃ a l, TargetsFromTargetAnnotations vs.annotations = a :: l := by
    cases h : TargetsFromTargetAnnotations vs.annotations with
    | nil => exact absurd h hne
    | cons a l => exact ⟨a, l, rfl⟩
  have hres : resolveTargets vs = TargetsFromTargetAnnotations vs.annotations := by
    unfold resolveTargets
    rw [ht]
    rfl
  refine ⟨hres, ?_⟩
  intro ep hep
  unfold endpointsForVirtualServer at hep
  rw [hvalid] at hep
  simp only [if_true] at hep
  rw [hres, ht] at hep
  unfold EndpointsForHostname at hep
  simp only [List.isEmpty_cons, Bool.false_eq_true, if_false, List.mem_singleton] at hep
  rw [hep, ht]

/-- Witness for C2 at scenario 3 of the spec: annotation targets override the
spec-level address `9.9.9.9`. -/
theorem overrideTargetsExact_witness :
    resolveTargets exampleOverride = TargetsFromTargetAnnotations exampleOverride.annotations ∧
    ∀ ep ∈ endpointsForVirtualServer exampleOverride,
      ep.targets = TargetsFromTargetAnnotations exampleOverride.annotations :=
  overrideTargetsExact exampleOverride (by rfl) (by decide)

/-- C3: for a VirtualServer passing the validity gate whose target-override
annotation yields no addresses, a non-empty spec-level address is used as the
sole target (taking precedence over the status-level address); otherwise a
non-empty status-level address is used as the sole target. -/
theorem specAddressPrecedence (vs : VirtualServer)
    (hvalid : hasValidVirtualServerIP vs = true)
    (hann : TargetsFromTargetAnnotations vs.annotations = []) :
    (vs.spec.virtualServerAddress ≠ "" →
      resolveTargets vs = [vs.spec.virtualServerAddress]) ∧
    (vs.spec.virtualServerAddress = "" → vs.status.vsAddress ≠ "" →
      resolveTargets vs = [vs.status.vsAddress]) := by
  constructor
  · intro hspec
    unfold resolveTargets
    rw [hann]
    simp [bne_iff_ne, hspec]
  · intro hspec hstatus
    unfold resolveTargets
    rw [hann, hspec]
    simp [bne_iff_ne, hstatus]

/-- Witness for C3 at a VirtualServer carrying both a spec-level address
`9.9.9.9` and a status-level address `10.0.0.5`. -/
theorem specAddressPrecedence_witness :
    (exampleSpecAddress.spec.virtualServerAddress ≠ "" →
      resolveTargets exampleSpecAddress = [exampleSpecAddress.spec.virtualServerAddress]) ∧
    (exampleSpecAddress.spec.virtualServerAddress = "" →
      exampleSpecAddress.status.vsAddress ≠ "" →
      resolveTargets exampleSpecAddress = [exampleSpecAddress.status.vsAddress]) :=
  specAddressPrecedence exampleSpecAddress (by rfl) (by rfl)

/-- C9: for every VirtualServer passing the validity gate, the resolved target
list handed to record construction is non-empty — the empty-target
fallthrough is unreachable, because the gate guarantees a non-empty
status-level address. -/
theorem validGateTargetsNonempty (vs : VirtualServer)
    (hvalid : hasValidVirtualServerIP vs = true) :
    resolveTargets vs ≠ [] := by
  have hstatus : vs.status.vsAddress ≠ "" := statusAddress_ne_empty vs hvalid
  unfold resolveTargets
  cases ht : TargetsFromTargetAnnotations vs.annotations with
  | cons a l => simp
  | nil =>
    by_cases hspec : vs.spec.virtualServerAddress = ""
    · rw [hspec]
      simp [bne_iff_ne, hstatus]
    · simp [bne_iff_ne, hspec]

/-- Witness for C9 at scenario 1 of the spec. -/
theorem validGateTargetsNonempty_witness :
    resolveTargets exampleVirtualServer ≠ [] :=
  validGateTargetsNonempty exampleVirtualServer (by rfl)

/-- C4: every record returned by `Endpoints` has its target list sorted by the
implementation-fixed total order, and repeated calls over the unchanged
snapshot produce identical output. -/
theorem endpointsTargetsSortedDeterministic (annotationFilter : String)
    (objs : List CachedObject) (eps : List EndpointRecord)
    (h : Endpoints annotationFilter objs = Except.ok eps) :
    (∀ ep ∈ eps, List.Sorted targetLe ep.targets) ∧
    Endpoints annotationFilter objs = Endpoints annotationFilter objs := by
  refine ⟨?_, rfl⟩
  unfold Endpoints at h
  split at h
  · exact Except.noConfusion h
  · split at h
    · exact Except.noConfusion h
    · rename_i filtered _
      have h2 : Except.ok ((endpointsFromVirtualServersList filtered).map sortEndpointTargets) =
          (Except.ok eps : Except String (List EndpointRecord)) := h
      injection h2 with h2
      intro ep hep
      rw [← h2] at hep
      obtain ⟨x, _, hx⟩ := List.mem_map.mp hep
      rw [← hx]
      exact List.sorted_insertionSort targetLe x.targets

/-- Witness for C4 at scenario 3 of the spec: the annotation targets
`5.6.7.8,1.2.3.4` come back sorted as `1.2.3.4, 5.6.7.8`. -/
theorem endpointsTargetsSortedDeterministic_witness :
    (∀ ep ∈ [({ dnsName := "a.example.com", targets := ["1.2.3.4", "5.6.7.8"],
                recordTTL := none,
                resource := "f5-virtualserver/default/vs1" } : EndpointRecord)],
      List.Sorted targetLe ep.targets) ∧
    Endpoints "" [CachedObject.unstructured (Except.ok exampleOverride)] =
      Endpoints "" [CachedObject.unstructured (Except.ok exampleOverride)] :=
  endpointsTargetsSortedDeterministic "" [CachedObject.unstructured (Except.ok exampleOverride)]
    [{ dnsName := "a.example.com", targets := ["1.2.3.4", "5.6.7.8"], recordTTL := none,
       resource := "f5-virtualserver/default/vs1" }] (by rfl)

/-- C5: filtering with the empty annotation-filter expression is an identity
transform: the input list is returned exactly. -/
theorem emptyFilterIdentity (virtualServers : List VirtualServer) :
    filterByAnnotations "" virtualServers = Except.ok virtualServers :=
  rfl

/-- C6: filtering with a well-formed non-empty expression returns exactly the
sub-list of input objects whose annotations match the compiled selector;
survivors are input objects themselves (no field is rewritten) and
non-matching objects are excluded. -/
theorem nonemptyFilterRestriction (expression : String) (l : List VirtualServer)
    (sel : Selector) (hp : ParseFilter expression = Except.ok sel)
    (hne : Selector.Empty sel = false) :
    filterByAnnotations expression l =
      Except.ok (l.filter (fun v => Selector.Matches sel v.annotations)) ∧
    (∀ v ∈ l.filter (fun v => Selector.Matches sel v.annotations), v ∈ l) ∧
    (∀ v ∈ l, Selector.Matches sel v.annotations = false →
      v ∉ l.filter (fun v => Selector.Matches sel v.annotations)) := by
  refine ⟨?_, ?_, ?_⟩
  · unfold filterByAnnotations
    rw [hp]
    simp [hne]
  · intro v hv
    exact List.mem_of_mem_filter hv
  · intro v _ hmatch hmem
    have hfil := (List.mem_filter.mp hmem).2
    rw [hmatch] at hfil
    exact Bool.noConfusion hfil

/-- Witness for C6 at scenario 4 of the spec: filter `environment=prod`
excludes an object annotated `environment=dev`. -/
theorem nonemptyFilterRestriction_witness :
    filterByAnnotations "environment=prod" [exampleDevEnvironment] =
      Except.ok ([exampleDevEnvironment].filter
        (fun v => Selector.Matches { requirements := [("environment", "prod")] } v.annotations)) ∧
    (∀ v ∈ [exampleDevEnvironment].filter
        (fun v => Selector.Matches { requirements := [("environment", "prod")] } v.annotations),
      v ∈ [exampleDevEnvironment]) ∧
    (∀ v ∈ [exampleDevEnvironment],
      Selector.Matches { requirements := [("environment", "prod")] } v.annotations = false →
      v ∉ [exampleDevEnvironment].filter
        (fun v => Selector.Matches { requirements := [("environment", "prod")] } v.annotations)) :=
  nonemptyFilterRestriction "environment=prod" [exampleDevEnvironment]
    { requirements := [("environment", "prod")] } (by rfl) (by rfl)

lemma convertAll_error_of_mem (obj : CachedObject) (e : String)
    (h : convertCachedObject obj = Except.error e) (l1 l2 : List CachedObject) :
    ∃ e2, convertAll (l1 ++ obj :: l2) = Except.error e2 := by
  induction l1 with
  | nil => exact ⟨e, by simp [convertAll, h]⟩
  | cons x xs ih =>
    cases hx : convertCachedObject x with
    | error e3 => exact ⟨e3, by simp [convertAll, hx]⟩
    | ok v =>
      obtain ⟨e2, he2⟩ := ih
      exact ⟨e2, by simp [convertAll, hx, he2]⟩

/-- C7: if any single cached object fails conversion to the typed
VirtualServer shape, the whole `Endpoints` call returns an error and no
endpoint list, regardless of the other objects. -/
theorem conversionFailureAborts (annotationFilter : String)
    (l1 l2 : List CachedObject) (obj : CachedObject) (e : String)
    (h : convertCachedObject obj = Except.error e) :
    ∃ e2, Endpoints annotationFilter (l1 ++ obj :: l2) = Except.error e2 := by
  obtain ⟨e2, he2⟩ := convertAll_error_of_mem obj e h l1 l2
  exact ⟨e2, by simp [Endpoints, he2]⟩

/-- Witness for C7: a cached object of the wrong runtime type aborts the
call. -/
theorem conversionFailureAborts_witness :
    ∃ e2, Endpoints "" ([] ++ CachedObject.notUnstructured :: []) = Except.error e2 :=
  conversionFailureAborts "" [] [] CachedObject.notUnstructured "could not convert" rfl

/-- Counterexample to C8 as stated: with cache sync and converter setup
succeeding, construction succeeds for the malformed filter expression
`invalid filter`, even though that expression fails to parse. -/
theorem constructionIgnoresMalformedFilter_cx :
    NewF5VirtualServerSource (Except.ok ()) (Except.ok ()) "default" "invalid filter" =
      Except.ok { vsNamespace := "default", annotationFilter := "invalid filter" } ∧
    ParseFilter "invalid filter" =
      Except.error "unable to parse requirement: invalid filter" :=
  ⟨rfl, rfl⟩

/-- C8 (amended): construction never inspects the annotation-filter
expression; given cache sync and converter setup succeed, it succeeds for any
expression, storing it verbatim — a filter syntax error is only detected
later, inside `Endpoints`. -/
theorem constructionIgnoresMalformedFilter (vsNamespace annotationFilter : String) :
    NewF5VirtualServerSource (Except.ok ()) (Except.ok ()) vsNamespace annotationFilter =
      Except.ok { vsNamespace := vsNamespace, annotationFilter := annotationFilter } :=
  rfl

/-- C10: the stored filter expression is parsed inside every `Endpoints` call,
not at construction: for a malformed expression, construction (with cache
sync and converter setup succeeding) still succeeds, while every `Endpoints`
call whose conversion phase succeeds fails with the wrapped filter error and
returns no endpoints. -/
theorem filterParsedPerEndpointsCall (vsNamespace expression : String)
    (objs : List CachedObject) (vss : List VirtualServer) (e : String)
    (hconv : convertAll objs = Except.ok vss)
    (hparse : ParseFilter expression = Except.error e) :
    NewF5VirtualServerSource (Except.ok ()) (Except.ok ()) vsNamespace expression =
      Except.ok { vsNamespace := vsNamespace, annotationFilter := expression } ∧
    Endpoints expression objs =
      Except.error ("failed to filter VirtualServers: " ++ e) := by
  refine ⟨rfl, ?_⟩
  have hf : filterByAnnotations expression vss = Except.error e := by
    simp [filterByAnnotations, hparse]
  simp [Endpoints, hconv, hf]

/-- Witness for C10: construction succeeds for `invalid filter`, and the
Endpoints call over an empty snapshot fails with the wrapped parse error. -/
theorem filterParsedPerEndpointsCall_witness :
    NewF5VirtualServerSource (Except.ok ()) (Except.ok ()) "default" "invalid filter" =
      Except.ok { vsNamespace := "default", annotationFilter := "invalid filter" } ∧
    Endpoints "invalid filter" [] =
      Except.error ("failed to filter VirtualServers: " ++
        "unable to parse requirement: invalid filter") :=
  filterParsedPerEndpointsCall "default" "invalid filter" [] []
    "unable to parse requirement: invalid filter" rfl rfl
